import Mathlib

/-!
Verification of the camera-fit computation and the glTF attribute-stripping
transformation of the repository (src/studio_test_layout/main.js).

The file has two parts:

1. A shallow embedding of the manual stripping section of the `optimize`
   script (the second half of main.js): the glTF document is modelled as a
   structure with one field per JSON key the script touches, plus an opaque
   `rest` string standing for every key the script never mentions.  A JS
   `delete obj.k` is modelled by setting the corresponding `Option` field to
   `none`; the `if (x)` presence guards become `Option.map`.

2. A shallow embedding of the viewer class: `THREE.Vector3` over the reals,
   `THREE.Box3` with the library semantics of `getSize`/`getCenter` on empty
   boxes, `fitCameraToSelection` and `setCameraView`.  `Math.atan` is
   `Real.arctan`; `Vector3.normalize` divides by `length() || 1` exactly as
   the three.js library does, so the zero vector normalizes to itself.
-/

namespace StudioTestLayout

/-! ## Part 1: the attribute stripper (optimize script, lines 226-260) -/

/-- A glTF texture reference object such as `{"index": 3, "texCoord": 0}`. -/
structure TextureRef where
  index : Nat
  texCoord : Option Nat
deriving DecidableEq

/-- The `pbrMetallicRoughness` object of a material.  `rest` stands for the
fields the script never touches (baseColorFactor, metallicFactor, ...). -/
structure Pbr where
  baseColorTexture : Option TextureRef
  metallicRoughnessTexture : Option TextureRef
  rest : String
deriving DecidableEq

/-- A glTF material.  `rest` stands for untouched fields (name, factors,
extensions, ...). -/
structure Material where
  pbrMetallicRoughness : Option Pbr
  normalTexture : Option TextureRef
  occlusionTexture : Option TextureRef
  emissiveTexture : Option TextureRef
  rest : String
deriving DecidableEq

/-- The `attributes` map of a primitive: the six attribute keys the script
mentions or must preserve, plus `rest` for any other attribute key
(JOINTS_0, WEIGHTS_0, ...).  Values are accessor indices. -/
structure Attributes where
  POSITION : Option Nat
  NORMAL : Option Nat
  TEXCOORD_0 : Option Nat
  TEXCOORD_1 : Option Nat
  TANGENT : Option Nat
  COLOR_0 : Option Nat
  rest : String
deriving DecidableEq

/-- A mesh primitive: attribute map, index buffer accessor, material index,
topology mode, and `rest` for untouched fields. -/
structure Primitive where
  attributes : Option Attributes
  indices : Option Nat
  material : Option Nat
  mode : Option Nat
  rest : String
deriving DecidableEq

/-- A glTF mesh: its primitive list and `rest` for untouched fields. -/
structure Mesh where
  primitives : Option (List Primitive)
  rest : String
deriving DecidableEq

/-- A glTF document.  `images`, `textures` and `samplers` are kept opaque
(the script only deletes them wholesale); `rest` stands for every top-level
key the script never mentions (accessors, bufferViews, buffers, nodes,
scenes, asset, ...). -/
structure Gltf where
  images : Option String
  textures : Option String
  samplers : Option String
  materials : Option (List Material)
  meshes : Option (List Mesh)
  rest : String
deriving DecidableEq

/-- Embeds the per-material block of the script: if `pbrMetallicRoughness`
is present delete its `baseColorTexture` and `metallicRoughnessTexture`,
then delete `normalTexture`, `occlusionTexture`, `emissiveTexture`. -/
def stripMaterial (mat : Material) : Material :=
  { mat with
    pbrMetallicRoughness := mat.pbrMetallicRoughness.map fun p =>
      { p with baseColorTexture := none, metallicRoughnessTexture := none }
    normalTexture := none
    occlusionTexture := none
    emissiveTexture := none }

/-- Embeds the per-primitive attribute deletions: NORMAL, TEXCOORD_0,
TEXCOORD_1, TANGENT and COLOR_0 are deleted; POSITION and `rest` are not
mentioned by the script. -/
def stripAttributes (a : Attributes) : Attributes :=
  { a with
    NORMAL := none
    TEXCOORD_0 := none
    TEXCOORD_1 := none
    TANGENT := none
    COLOR_0 := none }

/-- Embeds the per-primitive block: if `attributes` is present, strip it;
`indices`, `material`, `mode` are untouched. -/
def stripPrimitive (p : Primitive) : Primitive :=
  { p with attributes := p.attributes.map stripAttributes }

/-- Embeds the per-mesh block: if `primitives` is present, strip each one. -/
def stripMesh (m : Mesh) : Mesh :=
  { m with primitives := m.primitives.map (List.map stripPrimitive) }

/-- The whole manual stripping section of `optimize` (lines 226-260 of
main.js): delete `images`, `textures`, `samplers`; strip every material if
`materials` is present; strip every primitive of every mesh if `meshes` is
present. -/
def stripGltf (g : Gltf) : Gltf :=
  { g with
    images := none
    textures := none
    samplers := none
    materials := g.materials.map (List.map stripMaterial)
    meshes := g.meshes.map (List.map stripMesh) }

/-! Spec-side checkers, written from the spec invariant "no material
references image/texture/sampler data; no primitive retains NORMAL,
TEXCOORD_0, TEXCOORD_1, TANGENT, or COLOR_0 attributes". -/

/-- Spec predicate: the material holds no texture reference. -/
def materialStripped (m : Material) : Bool :=
  (match m.pbrMetallicRoughness with
   | none => true
   | some p => p.baseColorTexture.isNone && p.metallicRoughnessTexture.isNone)
  && m.normalTexture.isNone && m.occlusionTexture.isNone && m.emissiveTexture.isNone

/-- Spec predicate: the attribute map holds none of the five stripped keys. -/
def attributesStripped (a : Attributes) : Bool :=
  a.NORMAL.isNone && a.TEXCOORD_0.isNone && a.TEXCOORD_1.isNone
    && a.TANGENT.isNone && a.COLOR_0.isNone

/-- Spec predicate: the primitive carries none of the five stripped
attribute keys (vacuously true when it has no attribute map). -/
def primitiveAttributesStripped (p : Primitive) : Bool :=
  match p.attributes with
  | none => true
  | some a => attributesStripped a

/-- Spec predicate: every primitive of the mesh is stripped. -/
def meshStripped (m : Mesh) : Bool :=
  match m.primitives with
  | none => true
  | some ps => ps.all primitiveAttributesStripped

/-- Spec predicate: every primitive of every mesh of the document carries
none of the five stripped attribute keys. -/
def meshesAttributesStripped (g : Gltf) : Bool :=
  match g.meshes with
  | none => true
  | some ms => ms.all meshStripped

/-- Spec predicate: the post-stripping invariant of the whole document. -/
def gltfStripped (g : Gltf) : Bool :=
  g.images.isNone && g.textures.isNone && g.samplers.isNone
    && (match g.materials with
        | none => true
        | some l => l.all materialStripped)
    && meshesAttributesStripped g

/-! Spec-side frame projections: everything the spec says must be left
unchanged (POSITION, index/topology data, and every field outside the
enumerated deletions). -/

/-- The non-stripped part of an attribute map: POSITION and all other keys. -/
def attributesCore (a : Attributes) : Option Nat × String :=
  (a.POSITION, a.rest)

/-- The non-stripped part of a primitive: index buffer, material index,
topology mode, other fields, and the non-stripped part of the attributes. -/
def primitiveCore (p : Primitive) :
    Option Nat × Option Nat × Option Nat × String × Option (Option Nat × String) :=
  (p.indices, p.material, p.mode, p.rest, p.attributes.map attributesCore)

/-- The non-stripped part of a mesh. -/
def meshCore (m : Mesh) :
    String × Option (List (Option Nat × Option Nat × Option Nat × String ×
      Option (Option Nat × String))) :=
  (m.rest, m.primitives.map (List.map primitiveCore))

/-- The non-stripped part of a material: its other fields and, when the
`pbrMetallicRoughness` object is present, that object and its other
fields. -/
def materialCore (m : Material) : String × Option String :=
  (m.rest, m.pbrMetallicRoughness.map Pbr.rest)

/-- The non-stripped part of a glTF document. -/
def gltfCore (g : Gltf) :
    String × Option (List (String × Option String)) ×
      Option (List (String × Option (List (Option Nat × Option Nat × Option Nat ×
        String × Option (Option Nat × String))))) :=
  (g.rest, g.materials.map (List.map materialCore), g.meshes.map (List.map meshCore))

/-! ## Part 2: the viewer (StudioViewer class, lines 5-207) -/

noncomputable section

open Real

/-- THREE.Vector3 over the reals. -/
structure V3 where
  x : ℝ
  y : ℝ
  z : ℝ

/-- Vector3.sub. -/
def V3.sub (a b : V3) : V3 := ⟨a.x - b.x, a.y - b.y, a.z - b.z⟩

/-- Vector3.add. -/
def V3.add (a b : V3) : V3 := ⟨a.x + b.x, a.y + b.y, a.z + b.z⟩

/-- Vector3.multiplyScalar. -/
def V3.smul (a : V3) (s : ℝ) : V3 := ⟨a.x * s, a.y * s, a.z * s⟩

/-- Vector3.length: sqrt of the sum of squared components. -/
def V3.length (a : V3) : ℝ := Real.sqrt (a.x * a.x + a.y * a.y + a.z * a.z)

/-- Vector3.normalize.  The three.js library divides by `length() || 1`
(divideScalar multiplies by the reciprocal), so a zero vector is left
unchanged rather than producing NaN. -/
def V3.normalize (a : V3) : V3 :=
  a.smul (1 / (if a.length = 0 then 1 else a.length))

/-- Componentwise minimum (Vector3.min, used by Box3 union). -/
def V3.minV (a b : V3) : V3 := ⟨min a.x b.x, min a.y b.y, min a.z b.z⟩

/-- Componentwise maximum (Vector3.max, used by Box3 union). -/
def V3.maxV (a b : V3) : V3 := ⟨max a.x b.x, max a.y b.y, max a.z b.z⟩

/-- THREE.Box3: axis-aligned box given by two corner points. -/
structure Box3 where
  min : V3
  max : V3

/-- Box3.isEmpty: true when some max component is strictly below the
corresponding min component (the three.js emptiness test). -/
def Box3.isEmpty (b : Box3) : Prop :=
  b.max.x < b.min.x ∨ b.max.y < b.min.y ∨ b.max.z < b.min.z

instance (b : Box3) : Decidable b.isEmpty := by
  unfold Box3.isEmpty; infer_instance

/-- Box3.getSize: max - min, or the zero vector for an empty box. -/
def Box3.getSize (b : Box3) : V3 :=
  if b.isEmpty then ⟨0, 0, 0⟩ else b.max.sub b.min

/-- Box3.getCenter: midpoint of min and max, or the zero vector for an
empty box. -/
def Box3.getCenter (b : Box3) : V3 :=
  if b.isEmpty then ⟨0, 0, 0⟩ else (b.min.add b.max).smul 0.5

/-- Merging one more axis-aligned bound into the accumulated box, as
box.expandByObject does with the world bounds of each object. -/
def Box3.union (a b : Box3) : Box3 := ⟨a.min.minV b.min, a.max.maxV b.max⟩

/-- The box accumulated by the loop `for (const object of selection)
box.expandByObject(object)`, with each object represented by its
axis-aligned bounds.  `none` encodes the initial empty THREE.Box3 (whose
min is at plus infinity and max at minus infinity); expanding it by the
first box yields that box. -/
def unionBox : List Box3 → Option Box3
  | [] => none
  | b :: bs => some (bs.foldl Box3.union b)

/-- box.getSize of the accumulated box; the empty box (empty selection)
gives the zero vector, as in the three.js library. -/
def selectionSize (sel : List Box3) : V3 :=
  match unionBox sel with
  | none => ⟨0, 0, 0⟩
  | some b => b.getSize

/-- box.getCenter of the accumulated box; the empty box gives the zero
vector. -/
def selectionCenter (sel : List Box3) : V3 :=
  match unionBox sel with
  | none => ⟨0, 0, 0⟩
  | some b => b.getCenter

/-- The camera fields read by fitCameraToSelection: fov (degrees), aspect,
and current position. -/
structure Camera where
  fov : ℝ
  aspect : ℝ
  position : V3

/-- Everything fitCameraToSelection assigns: controls.maxDistance,
controls.target, camera.near, camera.far and camera.position, together with
the computed fit distance. -/
structure FitResult where
  maxDistance : ℝ
  target : V3
  near : ℝ
  far : ℝ
  cameraPos : V3
  distance : ℝ

/-- Line 131 of main.js: `maxSize / (2 * Math.atan(Math.PI * camera.fov /
360))`.  Note the source calls Math.atan (arctangent), not Math.tan. -/
def fitHeightDistance (maxSize fov : ℝ) : ℝ :=
  maxSize / (2 * Real.arctan (Real.pi * fov / 360))

/-- fitCameraToSelection (lines 122-150).  The box union, size, center,
distances and the direction vector follow the source line by line;
controls.target is overwritten with the center before camera.position is
set to `controls.target - direction`.  The trailing
camera.updateProjectionMatrix() and controls.update() calls belong to the
external library and do not change the assigned values collected here. -/
def fitCameraToSelection (camera : Camera) (controlsTarget : V3)
    (selection : List Box3) (fitOffset : ℝ := 1.2) : FitResult :=
  let size := selectionSize selection
  let center := selectionCenter selection
  let maxSize := max (max size.x size.y) size.z
  let fitHeight := fitHeightDistance maxSize camera.fov
  let fitWidth := fitHeight / camera.aspect
  let distance := fitOffset * max fitHeight fitWidth
  let direction := ((controlsTarget.sub camera.position).normalize).smul distance
  { maxDistance := distance * 10
    target := center
    near := distance / 100
    far := distance * 100
    cameraPos := center.sub direction
    distance := distance }

/-- The viewer state read and written by setCameraView: the model
reference (this.model, unset until a model or placeholder is created), the
camera position, the point the camera was last asked to look at (standing
for the orientation set by camera.lookAt), and the controls target. -/
structure ViewerState where
  model : Option Unit
  cameraPos : V3
  cameraLook : V3
  controlsTarget : V3

/-- setCameraView (lines 168-192).  `if (!this.model) return;` is the
match on the model reference; the switch has no default, so an unknown
view name leaves the position unchanged; camera.lookAt(target) records the
look-at point; the final this.controls.update() is the external
OrbitControls call, passed in as `update`. -/
def setCameraView (update : ViewerState → ViewerState) (view : String)
    (s : ViewerState) : ViewerState :=
  match s.model with
  | none => s
  | some _ =>
    let dist : ℝ := 5
    let target : V3 := ⟨0, 0, 0⟩
    let pos : V3 :=
      if view = "isometric" then ⟨dist, dist, dist⟩
      else if view = "front" then ⟨0, 0, dist * 1.5⟩
      else if view = "top" then ⟨0, dist * 1.5, 0⟩
      else if view = "side" then ⟨dist * 1.5, 0, 0⟩
      else s.cameraPos
    update { s with cameraPos := pos, cameraLook := target }

end

/-! ## Theorems: the attribute stripper -/

theorem stripAttributes_idem (a : Attributes) :
    stripAttributes (stripAttributes a) = stripAttributes a := rfl

theorem stripMaterial_idem (m : Material) :
    stripMaterial (stripMaterial m) = stripMaterial m := by
  cases m with
  | mk pbr nt ot et r => cases pbr <;> rfl

theorem stripPrimitive_idem (p : Primitive) :
    stripPrimitive (stripPrimitive p) = stripPrimitive p := by
  cases p with
  | mk attrs i mat mo r => cases attrs <;> rfl

theorem stripMesh_idem (m : Mesh) :
    stripMesh (stripMesh m) = stripMesh m := by
  cases m with
  | mk ps r =>
    cases ps with
    | none => rfl
    | some l => simp [stripMesh, List.map_map, Function.comp, stripPrimitive_idem]

/-- C5: the attribute-stripping transformation is idempotent: stripping an
already stripped scene description changes nothing. -/
theorem stripGltf_idempotent (g : Gltf) :
    stripGltf (stripGltf g) = stripGltf g := by
  cases g with
  | mk im tx sm mats ms r =>
    cases mats <;> cases ms <;>
      simp [stripGltf, List.map_map, Function.comp, stripMaterial_idem, stripMesh_idem]

theorem materialStripped_strip (m : Material) :
    materialStripped (stripMaterial m) = true := by
  cases m with
  | mk pbr nt ot et r => cases pbr <;> simp [stripMaterial, materialStripped]

theorem attributesStripped_strip (a : Attributes) :
    attributesStripped (stripAttributes a) = true := by
  simp [stripAttributes, attributesStripped]

theorem primitiveStripped_strip (p : Primitive) :
    primitiveAttributesStripped (stripPrimitive p) = true := by
  cases p with
  | mk attrs i mat mo r =>
    cases attrs <;> simp [stripPrimitive, primitiveAttributesStripped, attributesStripped_strip]

theorem meshStripped_strip (m : Mesh) :
    meshStripped (stripMesh m) = true := by
  cases m with
  | mk ps r =>
    cases ps with
    | none => rfl
    | some l =>
      simp [stripMesh, meshStripped, List.all_eq_true, primitiveStripped_strip]

/-- C6: after stripping, no material retains any of the five texture
references, no top-level image/texture/sampler data remains, and no
primitive retains a NORMAL, TEXCOORD_0, TEXCOORD_1, TANGENT or COLOR_0
attribute; in particular a material holding only
pbrMetallicRoughness.baseColorTexture becomes a material with an empty
pbrMetallicRoughness object. -/
theorem stripGltf_invariant (g : Gltf) :
    gltfStripped (stripGltf g) = true ∧
      stripMaterial ⟨some ⟨some ⟨0, none⟩, none, ""⟩, none, none, none, ""⟩ =
        ⟨some ⟨none, none, ""⟩, none, none, none, ""⟩ := by
  refine ⟨?_, rfl⟩
  cases g with
  | mk im tx sm mats ms r =>
    cases mats <;> cases ms <;>
      simp [stripGltf, gltfStripped, meshesAttributesStripped, List.all_eq_true,
        materialStripped_strip, meshStripped_strip]

theorem attributesCore_strip (a : Attributes) :
    attributesCore (stripAttributes a) = attributesCore a := rfl

theorem primitiveCore_strip (p : Primitive) :
    primitiveCore (stripPrimitive p) = primitiveCore p := by
  cases p with
  | mk attrs i mat mo r => cases attrs <;> rfl

theorem meshCore_strip (m : Mesh) :
    meshCore (stripMesh m) = meshCore m := by
  cases m with
  | mk ps r =>
    cases ps with
    | none => rfl
    | some l => simp [stripMesh, meshCore, List.map_map, Function.comp, primitiveCore_strip]

theorem materialCore_strip (m : Material) :
    materialCore (stripMaterial m) = materialCore m := by
  cases m with
  | mk pbr nt ot et r => cases pbr <;> rfl

/-- C7: stripping changes nothing beyond the enumerated removals: the
POSITION attribute, the index buffer, the material index, the topology
mode, the pbrMetallicRoughness presence and every other field of every
level of the document are left unchanged (gltfCore collects exactly the
non-removed data). -/
theorem stripGltf_frame (g : Gltf) :
    gltfCore (stripGltf g) = gltfCore g := by
  cases g with
  | mk im tx sm mats ms r =>
    cases mats <;> cases ms <;>
      simp [stripGltf, gltfCore, List.map_map, Function.comp,
        materialCore_strip, meshCore_strip]

theorem map_eq_self_of_mem {α : Type} (f : α → α) (l : List α)
    (h : ∀ x ∈ l, f x = x) : List.map f l = l := by
  induction l with
  | nil => rfl
  | cons a t ih =>
    rw [List.forall_mem_cons] at h
    simp [h.1, ih h.2]

theorem stripAttributes_of_stripped (a : Attributes)
    (h : attributesStripped a = true) : stripAttributes a = a := by
  cases a with
  | mk P N T0 T1 TG C r =>
    simp [attributesStripped, Option.isNone_iff_eq_none] at h
    obtain ⟨⟨⟨⟨h1, h2⟩, h3⟩, h4⟩, h5⟩ := h
    simp [stripAttributes, h1, h2, h3, h4, h5]

theorem stripPrimitive_of_stripped (p : Primitive)
    (h : primitiveAttributesStripped p = true) : stripPrimitive p = p := by
  cases p with
  | mk attrs i mat mo r =>
    cases attrs with
    | none => rfl
    | some a =>
      simp [primitiveAttributesStripped] at h
      simp [stripPrimitive, stripAttributes_of_stripped a h]

theorem stripMesh_of_stripped (m : Mesh)
    (h : meshStripped m = true) : stripMesh m = m := by
  cases m with
  | mk ps r =>
    cases ps with
    | none => rfl
    | some l =>
      simp [meshStripped, List.all_eq_true] at h
      simp [stripMesh, map_eq_self_of_mem stripPrimitive l
        fun p hp => stripPrimitive_of_stripped p (h p hp)]

/-- C8 counterexample: a scene with no materials and no top-level texture
data whose single primitive still carries a NORMAL attribute is changed by
stripping (its NORMAL entry is deleted), so it is not returned unchanged. -/
theorem stripGltf_changes_textureless_scene :
    stripGltf ⟨none, none, none, none,
        some [⟨some [⟨some ⟨some 0, some 1, none, none, none, none, ""⟩,
          some 7, none, none, ""⟩], ""⟩], ""⟩ ≠
      ⟨none, none, none, none,
        some [⟨some [⟨some ⟨some 0, some 1, none, none, none, none, ""⟩,
          some 7, none, none, ""⟩], ""⟩], ""⟩ := by
  decide

/-- C8 (amended): the stripping transformation is total (no error
conditions); absent fields are skipped as no-ops, and a scene with no
materials, no top-level image/texture/sampler data, and no stripped
attribute keys on any primitive is returned unchanged. -/
theorem stripGltf_no_op (g : Gltf) (him : g.images = none)
    (htx : g.textures = none) (hsm : g.samplers = none)
    (hmat : g.materials = none) (hattrs : meshesAttributesStripped g = true) :
    stripGltf g = g := by
  cases g with
  | mk im tx sm mats ms r =>
    simp only at him htx hsm hmat
    subst him htx hsm hmat
    cases ms with
    | none => rfl
    | some l =>
      simp [meshesAttributesStripped, List.all_eq_true] at hattrs
      simp [stripGltf, map_eq_self_of_mem stripMesh l
        fun m hm => stripMesh_of_stripped m (hattrs m hm)]

/-- C8 witness: a concrete scene with no materials, no texture data and no
meshes satisfies the hypotheses and is returned unchanged. -/
theorem stripGltf_no_op_witness :
    meshesAttributesStripped ⟨none, none, none, none, none, "scene"⟩ = true ∧
      stripGltf ⟨none, none, none, none, none, "scene"⟩ =
        ⟨none, none, none, none, none, "scene"⟩ :=
  ⟨rfl, stripGltf_no_op _ rfl rfl rfl rfl rfl⟩

/-! ## Theorems: the camera fit and view switch -/

theorem arctan_pos_of_pos {x : ℝ} (hx : 0 < x) : 0 < Real.arctan x := by
  rw [← Real.arctan_zero]
  exact Real.arctan_strictMono hx

theorem arctan_lt_self_of_pos {x : ℝ} (hx : 0 < x) (hx2 : x < Real.pi / 2) :
    Real.arctan x < x :=
  calc Real.arctan x < Real.arctan (Real.tan x) :=
        Real.arctan_strictMono (Real.lt_tan hx hx2)
    _ = x := Real.arctan_tan (by linarith [Real.pi_pos]) hx2

/-- The fit distance of the (2,2,2) box selection does not depend on the
camera position or the orbit target. -/
theorem fit_distance_box222 (p t : V3) :
    (fitCameraToSelection ⟨45, 1, p⟩ t [⟨⟨-1, -1, -1⟩, ⟨1, 1, 1⟩⟩] 1.2).distance =
      1.2 * fitHeightDistance 2 45 := by
  norm_num [fitCameraToSelection, selectionSize, unionBox, Box3.getSize,
    Box3.isEmpty, V3.sub]

theorem fitHeightDistance_2_45_pos : 0 < fitHeightDistance 2 45 := by
  have h : 0 < Real.arctan (Real.pi * 45 / 360) :=
    arctan_pos_of_pos (by positivity)
  unfold fitHeightDistance
  exact div_pos (by norm_num) (by linarith)

/-- C1 (code evaluated at the failing input): line 131 of main.js computes
the height-fit denominator with Math.atan (arctangent), not the tangent of
the spec formula.  For the (2,2,2) box at fov 45, aspect 1, margin 1.2 the
code value differs from the spec formula value and the resulting distance
exceeds 3, so it is not approximately 2.9. -/
theorem fit_uses_arctan_not_tan :
    fitHeightDistance 2 45 = 2 / (2 * Real.arctan (Real.pi * 45 / 360)) ∧
    fitHeightDistance 2 45 ≠ 2 / (2 * Real.tan (Real.pi * 45 / 360)) ∧
    3 < (fitCameraToSelection ⟨45, 1, ⟨5, 5, 5⟩⟩ ⟨0, 0, 0⟩
        [⟨⟨-1, -1, -1⟩, ⟨1, 1, 1⟩⟩] 1.2).distance := by
  have hx8 : Real.pi * 45 / 360 = Real.pi / 8 := by ring
  have h0 : 0 < Real.pi / 8 := by positivity
  have h2 : Real.pi / 8 < Real.pi / 2 := by linarith [Real.pi_pos]
  have htan : Real.pi / 8 < Real.tan (Real.pi / 8) := Real.lt_tan h0 h2
  have harc : Real.arctan (Real.pi / 8) < Real.pi / 8 := arctan_lt_self_of_pos h0 h2
  have hpos : 0 < Real.arctan (Real.pi / 8) := arctan_pos_of_pos h0
  refine ⟨rfl, ?_, ?_⟩
  · unfold fitHeightDistance
    rw [hx8]
    have hlt : 2 / (2 * Real.tan (Real.pi / 8)) < 2 / (2 * Real.arctan (Real.pi / 8)) :=
      div_lt_div_of_pos_left (by norm_num) (by linarith) (by linarith)
    exact hlt.ne'
  · rw [fit_distance_box222]
    have ha04 : Real.arctan (Real.pi / 8) < 0.4 := by
      have := Real.pi_lt_d2
      linarith
    have h24 : fitHeightDistance 2 45 = 1 / Real.arctan (Real.pi / 8) := by
      unfold fitHeightDistance
      rw [hx8, div_eq_div_iff (by linarith) (by linarith)]
      ring
    rw [h24, mul_one_div, lt_div_iff₀ hpos]
    linarith

/-- C2 counterexample: on the empty selection the operation raises no
error; it returns concrete camera parameters (all distances zero, target
and camera position at the origin), contradicting the claimed
EmptyInputError failure. -/
theorem fit_empty_returns_params :
    fitCameraToSelection ⟨45, 1, ⟨5, 5, 5⟩⟩ ⟨0, 0, 0⟩ [] 1.2 =
      ⟨0, ⟨0, 0, 0⟩, 0, 0, ⟨0, 0, 0⟩, 0⟩ := by
  norm_num [fitCameraToSelection, selectionSize, selectionCenter, unionBox,
    fitHeightDistance, V3.sub, V3.normalize, V3.smul, V3.length]

/-- C2 (amended): on the empty selection the operation does not fail: the
accumulated box stays empty, its size and center are the zero vector, and
the returned parameters are all zero (distance, near, far, max orbit
distance) with target and camera position at the origin, for every camera,
orbit target and margin factor. -/
theorem fit_empty (camera : Camera) (t : V3) (off : ℝ) :
    fitCameraToSelection camera t [] off = ⟨0, ⟨0, 0, 0⟩, 0, 0, ⟨0, 0, 0⟩, 0⟩ := by
  norm_num [fitCameraToSelection, selectionSize, selectionCenter, unionBox,
    fitHeightDistance, V3.sub, V3.normalize, V3.smul, V3.length]

/-- C3 counterexample: with the camera already at the orbit target (the
view direction has zero length) the operation raises no error: it returns
camera parameters with a positive distance, placing the camera at the box
center, contradicting the claimed DegenerateDirectionError failure. -/
theorem fit_zero_direction_returns_params :
    (fitCameraToSelection ⟨45, 1, ⟨1, 2, 3⟩⟩ ⟨1, 2, 3⟩
        [⟨⟨-1, -1, -1⟩, ⟨1, 1, 1⟩⟩] 1.2).cameraPos = ⟨0, 0, 0⟩ ∧
      (fitCameraToSelection ⟨45, 1, ⟨1, 2, 3⟩⟩ ⟨1, 2, 3⟩
        [⟨⟨-1, -1, -1⟩, ⟨1, 1, 1⟩⟩] 1.2).target = ⟨0, 0, 0⟩ ∧
      0 < (fitCameraToSelection ⟨45, 1, ⟨1, 2, 3⟩⟩ ⟨1, 2, 3⟩
        [⟨⟨-1, -1, -1⟩, ⟨1, 1, 1⟩⟩] 1.2).distance := by
  refine ⟨?_, ?_, ?_⟩
  · norm_num [fitCameraToSelection, selectionSize, selectionCenter, unionBox,
      Box3.getSize, Box3.getCenter, Box3.isEmpty, V3.sub, V3.add, V3.smul,
      V3.normalize, V3.length]
  · norm_num [fitCameraToSelection, selectionSize, selectionCenter, unionBox,
      Box3.getSize, Box3.getCenter, Box3.isEmpty, V3.sub, V3.add, V3.smul]
  · rw [fit_distance_box222]
    have := fitHeightDistance_2_45_pos
    linarith

/-- C3 (amended): when the view direction is degenerate (the orbit target
equals the camera position, so the direction vector has zero length) no
error is raised: three.js normalization maps the zero vector to itself, so
the camera is placed exactly at the new orbit target (the box center), for
every selection and margin factor. -/
theorem fit_degenerate_direction (camera : Camera) (sel : List Box3) (off : ℝ) :
    (fitCameraToSelection camera camera.position sel off).cameraPos =
      (fitCameraToSelection camera camera.position sel off).target := by
  norm_num [fitCameraToSelection, V3.sub, V3.normalize, V3.smul, V3.length]

/-- C4 counterexample: a selection holding one degenerate (single-point)
bounding box is non-empty, yet the returned distance is 0 and near equals
far, refuting the claimed strict positivity for every non-empty
selection. -/
theorem fit_point_box_zero_distance :
    (fitCameraToSelection ⟨45, 1, ⟨5, 5, 5⟩⟩ ⟨0, 0, 0⟩
        [⟨⟨0, 0, 0⟩, ⟨0, 0, 0⟩⟩] 1.2).distance = 0 ∧
      (fitCameraToSelection ⟨45, 1, ⟨5, 5, 5⟩⟩ ⟨0, 0, 0⟩
        [⟨⟨0, 0, 0⟩, ⟨0, 0, 0⟩⟩] 1.2).near =
        (fitCameraToSelection ⟨45, 1, ⟨5, 5, 5⟩⟩ ⟨0, 0, 0⟩
          [⟨⟨0, 0, 0⟩, ⟨0, 0, 0⟩⟩] 1.2).far := by
  norm_num [fitCameraToSelection, selectionSize, unionBox, Box3.getSize,
    Box3.isEmpty, V3.sub, fitHeightDistance]

/-- C4 (amended): the operation always sets near = distance / 100,
far = distance * 100 and maxOrbitDistance = distance * 10; and whenever the
margin factor and the fov are positive and the union box has a positive
maximum extent, the distance is strictly positive and near < far. -/
theorem fit_near_far (camera : Camera) (t : V3) (sel : List Box3) (off : ℝ) :
    ((fitCameraToSelection camera t sel off).near =
        (fitCameraToSelection camera t sel off).distance / 100 ∧
      (fitCameraToSelection camera t sel off).far =
        (fitCameraToSelection camera t sel off).distance * 100 ∧
      (fitCameraToSelection camera t sel off).maxDistance =
        (fitCameraToSelection camera t sel off).distance * 10) ∧
    (0 < off → 0 < camera.fov →
      0 < max (max (selectionSize sel).x (selectionSize sel).y) (selectionSize sel).z →
      0 < (fitCameraToSelection camera t sel off).distance ∧
        (fitCameraToSelection camera t sel off).near <
          (fitCameraToSelection camera t sel off).far) := by
  refine ⟨⟨rfl, rfl, rfl⟩, fun hoff hfov hsize => ?_⟩
  have hatan : 0 < Real.arctan (Real.pi * camera.fov / 360) :=
    arctan_pos_of_pos (div_pos (mul_pos Real.pi_pos hfov) (by norm_num))
  have hH : 0 < fitHeightDistance
      (max (max (selectionSize sel).x (selectionSize sel).y) (selectionSize sel).z)
      camera.fov := div_pos hsize (by linarith)
  have hd : 0 < (fitCameraToSelection camera t sel off).distance := by
    have hdef : (fitCameraToSelection camera t sel off).distance =
        off * max
          (fitHeightDistance
            (max (max (selectionSize sel).x (selectionSize sel).y) (selectionSize sel).z)
            camera.fov)
          (fitHeightDistance
            (max (max (selectionSize sel).x (selectionSize sel).y) (selectionSize sel).z)
            camera.fov / camera.aspect) := rfl
    rw [hdef]
    exact mul_pos hoff (lt_of_lt_of_le hH (le_max_left _ _))
  refine ⟨hd, ?_⟩
  have hnear : (fitCameraToSelection camera t sel off).near =
      (fitCameraToSelection camera t sel off).distance / 100 := rfl
  have hfar : (fitCameraToSelection camera t sel off).far =
      (fitCameraToSelection camera t sel off).distance * 100 := rfl
  rw [hnear, hfar]
  linarith

/-- C4 witness: for the (2,2,2) box at fov 45, aspect 1 and margin 1.2 the
hypotheses hold, the distance is positive and near < far. -/
theorem fit_near_far_witness :
    0 < max (max (selectionSize [⟨⟨-1, -1, -1⟩, ⟨1, 1, 1⟩⟩]).x
        (selectionSize [⟨⟨-1, -1, -1⟩, ⟨1, 1, 1⟩⟩]).y)
        (selectionSize [⟨⟨-1, -1, -1⟩, ⟨1, 1, 1⟩⟩]).z ∧
      0 < (fitCameraToSelection ⟨45, 1, ⟨5, 5, 5⟩⟩ ⟨0, 0, 0⟩
          [⟨⟨-1, -1, -1⟩, ⟨1, 1, 1⟩⟩] 1.2).distance ∧
        (fitCameraToSelection ⟨45, 1, ⟨5, 5, 5⟩⟩ ⟨0, 0, 0⟩
          [⟨⟨-1, -1, -1⟩, ⟨1, 1, 1⟩⟩] 1.2).near <
          (fitCameraToSelection ⟨45, 1, ⟨5, 5, 5⟩⟩ ⟨0, 0, 0⟩
            [⟨⟨-1, -1, -1⟩, ⟨1, 1, 1⟩⟩] 1.2).far := by
  have hs : 0 < max (max (selectionSize [⟨⟨-1, -1, -1⟩, ⟨1, 1, 1⟩⟩]).x
      (selectionSize [⟨⟨-1, -1, -1⟩, ⟨1, 1, 1⟩⟩]).y)
      (selectionSize [⟨⟨-1, -1, -1⟩, ⟨1, 1, 1⟩⟩]).z := by
    norm_num [selectionSize, unionBox, Box3.getSize, Box3.isEmpty, V3.sub]
  exact ⟨hs, (fit_near_far ⟨45, 1, ⟨5, 5, 5⟩⟩ ⟨0, 0, 0⟩
    [⟨⟨-1, -1, -1⟩, ⟨1, 1, 1⟩⟩] 1.2).2 (by norm_num) (by norm_num) hs⟩

/-- C9: the camera-fit computation is deterministic: two invocations with
equal cameras, orbit targets, selections and margin factors return equal
results. -/
theorem fit_deterministic (c₁ c₂ : Camera) (t₁ t₂ : V3) (s₁ s₂ : List Box3)
    (o₁ o₂ : ℝ) (hc : c₁ = c₂) (ht : t₁ = t₂) (hs : s₁ = s₂) (ho : o₁ = o₂) :
    fitCameraToSelection c₁ t₁ s₁ o₁ = fitCameraToSelection c₂ t₂ s₂ o₂ := by
  subst hc ht hs ho
  rfl

/-- C9 witness: determinism instantiated at one concrete invocation. -/
theorem fit_deterministic_witness :
    fitCameraToSelection ⟨45, 1, ⟨5, 5, 5⟩⟩ ⟨0, 0, 0⟩
        [⟨⟨-1, -1, -1⟩, ⟨1, 1, 1⟩⟩] 1.2 =
      fitCameraToSelection ⟨45, 1, ⟨5, 5, 5⟩⟩ ⟨0, 0, 0⟩
        [⟨⟨-1, -1, -1⟩, ⟨1, 1, 1⟩⟩] 1.2 :=
  fit_deterministic _ _ _ _ _ _ _ _ rfl rfl rfl rfl

/-- C10: when no model has been loaded the view-switch operation returns
the state unchanged: camera position, camera orientation and orbit target
are untouched, for every view name and every behaviour of the external
controls update. -/
theorem setCameraView_no_model (update : ViewerState → ViewerState)
    (view : String) (s : ViewerState) (h : s.model = none) :
    setCameraView update view s = s := by
  unfold setCameraView
  rw [h]

/-- C10 witness: a concrete model-less state is returned unchanged by a
view switch. -/
theorem setCameraView_no_model_witness :
    (⟨none, ⟨5, 5, 5⟩, ⟨0, 0, 0⟩, ⟨0, 0, 0⟩⟩ : ViewerState).model = none ∧
      setCameraView id "front" ⟨none, ⟨5, 5, 5⟩, ⟨0, 0, 0⟩, ⟨0, 0, 0⟩⟩ =
        ⟨none, ⟨5, 5, 5⟩, ⟨0, 0, 0⟩, ⟨0, 0, 0⟩⟩ :=
  ⟨rfl, setCameraView_no_model id "front" _ rfl⟩

end StudioTestLayout
